import Mathlib

/-!
Verification of the talama.dev static-blog repository: shallow embedding of
the site configuration record, the Eleventy build configuration, the
localization dictionary, and the front-matter content model, together with
theorems settling the specification claims.
-/

namespace TalamaDev

/-! ## Site configuration (`SITE`, src/unnamed/part_005) -/

/-- The nested `editPost` record of the `SITE` configuration. -/
structure EditPost where
  enabled : Bool
  text : String
  url : String
deriving DecidableEq

/-- Shape of the site configuration record exported by the configuration
module (`export const SITE = { ... } as const`). -/
structure SiteConfig where
  website : String
  author : String
  profile : String
  desc : String
  title : String
  ogImage : String
  lightAndDarkMode : Bool
  postPerIndex : Nat
  postPerPage : Nat
  postPerArchive : Nat
  scheduledPostMargin : Nat
  genDescriptionMaxLines : Nat
  genDescriptionCount : Nat
  showArchives : Bool
  showBackButton : Bool
  showPageDesc : Bool
  editPost : EditPost
  dynamicOgImage : Bool
  lang : String
  langOg : String
  timezone : String
  wontonCommentUrl : String
deriving DecidableEq

/-- The `SITE` constant, field by field from the source module. -/
def SITE : SiteConfig :=
  { website := "https://talama.dev/"
    author := "Luca Salomoni"
    profile := "https://github.com/talama"
    desc := "My dev blog"
    title := "Talama.dev"
    ogImage := ""
    lightAndDarkMode := true
    postPerIndex := 4
    postPerPage := 4
    postPerArchive := 10
    scheduledPostMargin := 15 * 60 * 1000
    genDescriptionMaxLines := 30
    genDescriptionCount := 200
    showArchives := true
    showBackButton := false
    showPageDesc := false
    editPost :=
      { enabled := false
        text := "Suggest Changes"
        url := "https://github.com/talama/astro-paper/edit/main/" }
    dynamicOgImage := true
    lang := "en"
    langOg := "en_US"
    timezone := "Europe/Rome"
    wontonCommentUrl := "" }

/-- The configuration module exposes a single operation: reading the `SITE`
record.  It exports no setter and the record is declared `as const`, so the
operation algebra has exactly one constructor. -/
inductive SiteConfigOp where
  | read
deriving DecidableEq

/-- Run one operation against the configuration store: a read returns the
current record and leaves the store unchanged. -/
def runOp : SiteConfigOp → SiteConfig → SiteConfig × SiteConfig
  | .read, s => (s, s)

/-- Run a trace of operations, collecting the value each read returned and
the final state of the store. -/
def runTrace : List SiteConfigOp → SiteConfig → List SiteConfig × SiteConfig
  | [], s => ([], s)
  | op :: ops, s =>
    let (r, s1) := runOp op s
    let (rs, s2) := runTrace ops s1
    (r :: rs, s2)

/-! ## Eleventy build configuration (src/unnamed/part_000) -/

/-- Value of a field in a JavaScript object literal, as far as the build
configuration needs: a string or a nested object. -/
inductive ConfigValue where
  | str (s : String)
  | obj (fields : List (String × ConfigValue))

/-- Look a key up in the field list of an object literal (first match, as
JavaScript property access on the literal behaves). -/
def lookupKey {α : Type} : List (String × α) → String → Option α
  | [], _ => none
  | (k, v) :: rest, key => if k = key then some v else lookupKey rest key

/-- The field list of the `dir` object literal of the build
configuration. -/
def eleventyDirFields : List (String × ConfigValue) :=
  [("output", .str "dist"),
   ("input", .str "src"),
   ("includes", .str "_includes"),
   ("layouts", .str "_layouts")]

/-- The object returned by the Eleventy configuration function, key for key
from the source (the first key is spelled exactly as in the source). -/
def eleventyConfigObject : List (String × ConfigValue) :=
  [("markdownTemplteEngine", .str "njk"),
   ("dir", .obj eleventyDirFields)]

/-- Modelled from the spec: the external generator (Eleventy) consumes the
template-engine selection for markdown content under its documented
configuration key, spelled `markdownTemplateEngine`.  The generator's own
code is not part of this repository; only the key name is modelled. -/
def generatorMarkdownEngineKey : String := "markdownTemplateEngine"

/-! ## Localization dictionary (`en`, src/unnamed/part_006) -/

/-- Calendar datetime as the dictionary's date formatters consume it (the
fields the format strings `MMM D, YYYY` and `MMMM D, YYYY hh:mm A` read).
`month` is 1-based. -/
structure Dayjs where
  year : Nat
  month : Nat
  day : Nat
  hour : Nat
  minute : Nat
deriving DecidableEq

/-- Short month name, the `MMM` format token. -/
def monthShortName : Nat → String
  | 1 => "Jan" | 2 => "Feb" | 3 => "Mar" | 4 => "Apr"
  | 5 => "May" | 6 => "Jun" | 7 => "Jul" | 8 => "Aug"
  | 9 => "Sep" | 10 => "Oct" | 11 => "Nov" | 12 => "Dec"
  | _ => ""

/-- Full month name, the `MMMM` format token. -/
def monthFullName : Nat → String
  | 1 => "January" | 2 => "February" | 3 => "March" | 4 => "April"
  | 5 => "May" | 6 => "June" | 7 => "July" | 8 => "August"
  | 9 => "September" | 10 => "October" | 11 => "November" | 12 => "December"
  | _ => ""

/-- Two-digit zero padding, the `hh` and `mm` format tokens. -/
def pad2 (n : Nat) : String :=
  if n < 10 then "0" ++ toString n else toString n

/-- Hour on the 12-hour clock, the `hh` format token. -/
def hour12 (h : Nat) : Nat :=
  if h % 12 = 0 then 12 else h % 12

/-- Meridiem marker, the `A` format token. -/
def meridiem (h : Nat) : String :=
  if h % 24 < 12 then "AM" else "PM"

/-- The call `datetime.format("MMM D, YYYY")`. -/
def formatShort (d : Dayjs) : String :=
  monthShortName d.month ++ " " ++ toString d.day ++ ", " ++ toString d.year

/-- The call `datetime.format("MMMM D, YYYY hh:mm A")`. -/
def formatFull (d : Dayjs) : String :=
  monthFullName d.month ++ " " ++ toString d.day ++ ", " ++ toString d.year
    ++ " " ++ pad2 (hour12 d.hour) ++ ":" ++ pad2 d.minute ++ " " ++ meridiem d.hour

/-- Section with a static title and a static description. -/
structure TitleDesc where
  title : String
  desc : String

/-- Section whose description is a formatter over a name (tag or category). -/
structure NameSection where
  title : String
  desc : String → String

/-- The `about` section. -/
structure AboutSection where
  title : String

/-- The `notFoundPage` section. -/
structure NotFoundSection where
  title : String
  toHome : String
  toSearch : String

/-- The `date` section: four formatter functions. -/
structure DateSection where
  shortFormat : Dayjs → String
  fullFormat : Dayjs → String
  published : String → String
  updated : String → String

/-- The `pagination` section. -/
structure PaginationSection where
  next : String
  previous : String

/-- The `license` section. -/
structure LicenseSection where
  copyright : String
  statement : String

/-- The `common` section. -/
structure CommonSection where
  backToTop : String
  themeBtn : String
  allPosts : String
  featuredPosts : String
  recentPosts : String

/-- Shape of the localization dictionary. -/
structure Locale where
  archives : TitleDesc
  posts : TitleDesc
  tags : TitleDesc
  tag : NameSection
  categories : TitleDesc
  category : NameSection
  about : AboutSection
  search : TitleDesc
  notFoundPage : NotFoundSection
  date : DateSection
  pagination : PaginationSection
  license : LicenseSection
  common : CommonSection

/-- The English localization dictionary, entry by entry from the source. -/
def en : Locale :=
  { archives := { title := "Archives", desc := "All the articles I've posted." }
    posts := { title := "Posts", desc := "All the articles I've posted." }
    tags := { title := "Tags", desc := "All the tags used in posts." }
    tag := { title := "Tag: "
             desc := fun tag => "All the articles with the tag \"" ++ tag ++ "\"." }
    categories := { title := "Categories", desc := "All the categories." }
    category := { title := "Category: "
                  desc := fun category =>
                    "All the articles in the category \"" ++ category ++ "\"." }
    about := { title := "About" }
    search := { title := "Search", desc := "Search any article ..." }
    notFoundPage := { title := "Page Not Found", toHome := "Go back home"
                      toSearch := "Try searching" }
    date := { shortFormat := fun datetime => formatShort datetime
              fullFormat := fun datetime => formatFull datetime
              published := fun strDate => "Published: " ++ strDate
              updated := fun strDate => "Updated: " ++ strDate }
    pagination := { next := "Next", previous := "Prev" }
    license := { copyright := "Copyright", statement := "All rights reserved" }
    common := { backToTop := "Back to Top", themeBtn := "Toggle light & dark mode"
                allPosts := "All Posts", featuredPosts := "Featured"
                recentPosts := "Recent Posts" } }

/-- The exported dictionary `_t` is the English dictionary. -/
def _t : Locale := en

/-! ## Content model (front-matter schema, spec section 6 and the files
under src/src/data/blog) -/

/-- A front-matter value: a scalar string, a boolean, or a sequence of
strings. -/
inductive FMValue where
  | str (s : String)
  | bool (b : Bool)
  | list (xs : List String)
deriving DecidableEq

/-- The Post shape: required `title`, `author`, `date`; `featured` and
`draft` defaulting to false; optional `categories`, `tags`,
`description`. -/
structure Post where
  title : String
  author : String
  date : String
  featured : Bool
  draft : Bool
  categories : List String
  tags : List String
  description : Option String
deriving DecidableEq

/-- A content-schema build error: the file path and the offending front
matter field. -/
structure BuildError where
  path : String
  field : String
deriving DecidableEq

/-- The required front-matter keys. -/
def requiredKeys : List String := ["title", "author", "date"]

/-- Read a front-matter key as a scalar string; `none` when the key is
absent or holds another shape. -/
def getStr (fm : List (String × FMValue)) (key : String) : Option String :=
  match lookupKey fm key with
  | some (.str s) => some s
  | _ => none

/-- Read a front-matter key as a boolean, defaulting to false (the schema
default for `featured` and `draft`). -/
def getBool (fm : List (String × FMValue)) (key : String) : Bool :=
  match lookupKey fm key with
  | some (.bool b) => b
  | _ => false

/-- Read a front-matter key as a string sequence, defaulting to the empty
sequence (the schema default for `categories` and `tags`). -/
def getList (fm : List (String × FMValue)) (key : String) : List String :=
  match lookupKey fm key with
  | some (.list xs) => xs
  | _ => []

/-- Modelled from the spec: the content loader is owned by the external
static-site generator; the repository supplies only the schema.  The loader
parses a file's front matter into the Post shape and rejects front matter
whose required fields (`title`, `author`, `date`) are missing or malformed
with a build-time error naming the file path and the field. -/
def loadPost (path : String) (fm : List (String × FMValue)) :
    Except BuildError Post :=
  match getStr fm "title" with
  | none => .error ⟨path, "title"⟩
  | some title =>
    match getStr fm "author" with
    | none => .error ⟨path, "author"⟩
    | some author =>
      match getStr fm "date" with
      | none => .error ⟨path, "date"⟩
      | some date =>
        .ok
          { title := title
            author := author
            date := date
            featured := getBool fm "featured"
            draft := getBool fm "draft"
            categories := getList fm "categories"
            tags := getList fm "tags"
            description := getStr fm "description" }

/-- Serialize a Post's required fields back to a front-matter key set. -/
def serializePost (p : Post) : List (String × FMValue) :=
  [("title", .str p.title), ("author", .str p.author), ("date", .str p.date)]

/-- Modelled from the spec: the build reads every content file in order and
fails fast on the first content-schema error, producing the post list only
when every file parses. -/
def buildSite : List (String × List (String × FMValue)) →
    Except BuildError (List Post)
  | [] => .ok []
  | (path, fm) :: rest =>
    match loadPost path fm with
    | .error e => .error e
    | .ok post =>
      match buildSite rest with
      | .error e => .error e
      | .ok posts => .ok (post :: posts)

/-- Modelled from the spec: a production build excludes every post whose
front matter sets `draft` to true from the output file list. -/
def productionPosts (posts : List Post) : List Post :=
  posts.filter (fun p => !p.draft)

/-! ## Pagination (spec testable property; the index pages are produced by
the external generator from `SITE.postPerPage`) -/

/-- Modelled from the spec: paginating a post list splits it, in order,
into consecutive pages of `n` posts, the last page holding the
remainder. -/
def chunkList {α : Type} (n : Nat) (l : List α) : List (List α) :=
  if h : l.length = 0 ∨ n = 0 then [] else l.take n :: chunkList n (l.drop n)
termination_by l.length
decreasing_by
  push_neg at h
  simp only [List.length_drop]
  exact Nat.sub_lt (Nat.pos_of_ne_zero h.1) (Nat.pos_of_ne_zero h.2)

/-- The page sizes that paginating `total` posts into pages of `n`
produces. -/
def chunkSizes (n : Nat) (total : Nat) : List Nat :=
  if h : total = 0 ∨ n = 0 then [] else min n total :: chunkSizes n (total - n)
termination_by total
decreasing_by
  push_neg at h
  exact Nat.sub_lt (Nat.pos_of_ne_zero h.1) (Nat.pos_of_ne_zero h.2)

/-! ## The concrete content store (the three markdown files under
src/src/data/blog), front matter transcribed key for key -/

/-- Path of the first post. -/
def socketsPythonPath : String := "src/data/blog/2025/sockets_python.md"

/-- Front matter of `sockets_python.md`. -/
def socketsPythonFM : List (String × FMValue) :=
  [("title", .str "Understanding sockets with Python"),
   ("author", .str "Luca Salomoni"),
   ("date", .str "2025-09-13T19:00:25.283Z"),
   ("featured", .bool true),
   ("draft", .bool false),
   ("categories", .list ["Networking"]),
   ("tags", .list ["Sockets", "Python"]),
   ("description", .str
     "Learning about sockets by programming simple client/server code with Python")]

/-- Path of the second post. -/
def socketsPython1Path : String :=
  "src/data/blog/_2025/_sokets_python/sockets_python_1.md"

/-- Front matter of `sockets_python_1.md` (the `>-` folded description is
one line, newlines folded to spaces). -/
def socketsPython1FM : List (String × FMValue) :=
  [("title", .str "Understanding sockets with Python - Part 1"),
   ("author", .str "Luca Salomoni"),
   ("date", .str "2025-09-20T19:00:25.283Z"),
   ("featured", .bool true),
   ("draft", .bool false),
   ("categories", .list ["Networking"]),
   ("tags", .list ["Sockets", "Python"]),
   ("description", .str
     "In Part 1 we look at the basics of sockets by writing some simple server code. At the end we will have a server that we can telnet to, and that will echo our messages.")]

/-- Path of the third post. -/
def socketsPython2Path : String :=
  "src/data/blog/_2025/_sokets_python/sockets_python_2.md"

/-- Front matter of `sockets_python_2.md`. -/
def socketsPython2FM : List (String × FMValue) :=
  [("title", .str "Understanding sockets with Python - Part 2"),
   ("author", .str "Luca Salomoni"),
   ("date", .str "2025-09-24T19:13:34.861Z"),
   ("featured", .bool true),
   ("draft", .bool false),
   ("categories", .list ["Networking"]),
   ("tags", .list ["Sockets", "Python"]),
   ("description", .str
     "In Part 2 we continue looking at sockets (and a little HTTP) by writing a simple client that can connect to our server. At the end of the post we will have a client that can make a valid HTTP request to a web server and process the response.")]

/-- The content store: every content file with its front matter. -/
def contentStore : List (String × List (String × FMValue)) :=
  [(socketsPythonPath, socketsPythonFM),
   (socketsPython1Path, socketsPython1FM),
   (socketsPython2Path, socketsPython2FM)]

/-- The Post record `sockets_python.md` parses to. -/
def socketsPythonPost : Post :=
  { title := "Understanding sockets with Python"
    author := "Luca Salomoni"
    date := "2025-09-13T19:00:25.283Z"
    featured := true
    draft := false
    categories := ["Networking"]
    tags := ["Sockets", "Python"]
    description := some
      "Learning about sockets by programming simple client/server code with Python" }

/-- A minimal post record, used to instantiate universally quantified
statements about post lists. -/
def samplePost : Post :=
  { title := "p", author := "a", date := "2025-01-01T00:00:00.000Z"
    featured := false, draft := false, categories := [], tags := []
    description := none }

/-- A draft post record. -/
def draftPost : Post :=
  { samplePost with draft := true }

/-- An index of nine posts. -/
def ninePosts : List Post := List.replicate 9 samplePost

/-- A front matter lacking the required `date` field. -/
def missingDateFM : List (String × FMValue) :=
  [("title", .str "A post without a date"),
   ("author", .str "Luca Salomoni")]

/-! ## Helper lemmas -/

/-- Reading a key as a string fails exactly when the key holds no scalar
string. -/
theorem getStr_eq_none_iff (fm : List (String × FMValue)) (key : String) :
    getStr fm key = none ↔ ∀ s, lookupKey fm key ≠ some (FMValue.str s) := by
  rw [getStr]
  rcases h : lookupKey fm key with _ | v
  · exact ⟨fun _ s hc => Option.noConfusion hc, fun _ => rfl⟩
  · rcases v with s | b | xs
    · exact ⟨fun hc => Option.noConfusion hc, fun hall => absurd rfl (hall s)⟩
    · exact ⟨fun _ s hc => FMValue.noConfusion (Option.some.inj hc), fun _ => rfl⟩
    · exact ⟨fun _ s hc => FMValue.noConfusion (Option.some.inj hc), fun _ => rfl⟩

/-- A key readable as a string is present in the front matter. -/
theorem lookup_isSome_of_getStr {fm : List (String × FMValue)} {key : String}
    {s : String} (h : getStr fm key = some s) :
    (lookupKey fm key).isSome = true := by
  rw [getStr] at h
  rcases hv : lookupKey fm key with _ | v
  · rw [hv] at h
    exact Option.noConfusion h
  · rfl

/-- A key absent from the front matter is not readable as a string. -/
theorem getStr_eq_none_of_lookup_none {fm : List (String × FMValue)}
    {key : String} (h : lookupKey fm key = none) : getStr fm key = none := by
  rw [getStr, h]

/-- A trace of configuration operations leaves the store unchanged and
every read returns the starting record. -/
theorem runTrace_replicate (s : SiteConfig) :
    ∀ ops : List SiteConfigOp, runTrace ops s = (List.replicate ops.length s, s) := by
  intro ops
  induction ops with
  | nil => rfl
  | cons op rest ih =>
    cases op
    simp [runTrace, runOp, ih, List.replicate]

/-- The page sizes of a paginated list depend only on the list's length. -/
theorem chunkList_map_length {α : Type} (n : Nat) (l : List α) :
    (chunkList n l).map List.length = chunkSizes n l.length := by
  by_cases h : l.length = 0 ∨ n = 0
  · rw [chunkList, chunkSizes, dif_pos h, dif_pos h, List.map_nil]
  · rw [chunkList, chunkSizes, dif_neg h, dif_neg h, List.map_cons, List.length_take,
      chunkList_map_length n (l.drop n), List.length_drop]
termination_by l.length
decreasing_by
  push_neg at h
  simp only [List.length_drop]
  exact Nat.sub_lt (Nat.pos_of_ne_zero h.1) (Nat.pos_of_ne_zero h.2)

/-- Paginating `total` posts into pages of `n > 0` produces the ceiling of
`total / n` pages. -/
theorem chunkSizes_length (n : Nat) (hn : 0 < n) (total : Nat) :
    (chunkSizes n total).length = (total + n - 1) / n := by
  by_cases h0 : total = 0
  · subst h0
    rw [chunkSizes, dif_pos (Or.inl rfl)]
    simp only [List.length_nil, Nat.zero_add]
    exact (Nat.div_eq_of_lt (Nat.sub_lt hn Nat.one_pos)).symm
  · have h : ¬(total = 0 ∨ n = 0) := by
      push_neg
      exact ⟨h0, Nat.pos_iff_ne_zero.mp hn⟩
    rw [chunkSizes, dif_neg h, List.length_cons, chunkSizes_length n hn (total - n)]
    rcases Nat.lt_or_ge n total with hlt | hge
    · have h2 : total + n - 1 = (total - 1) + n := by omega
      have h3 : total - n + n - 1 = total - 1 := by omega
      rw [h3, h2, Nat.add_div_right _ hn]
    · have h1 : total - n = 0 := Nat.sub_eq_zero_of_le hge
      rw [h1]
      have hL : (0 + n - 1) / n = 0 := Nat.div_eq_of_lt (by omega)
      have hR : (total + n - 1) / n = 1 := Nat.div_eq_of_lt_le (by omega) (by omega)
      rw [hL, hR]
termination_by total
decreasing_by
  exact Nat.sub_lt (Nat.pos_of_ne_zero h0) hn

/-- The page count of a paginated list is the ceiling of its length divided
by the page size. -/
theorem chunkList_length {α : Type} (n : Nat) (hn : 0 < n) (l : List α) :
    (chunkList n l).length = (l.length + n - 1) / n := by
  have hmap := congrArg List.length (chunkList_map_length n l)
  rw [List.length_map] at hmap
  rw [hmap, chunkSizes_length n hn]

/-- A build whose file list holds a file the loader rejects never returns a
post list. -/
theorem buildSite_not_ok :
    ∀ (files : List (String × List (String × FMValue))) (path : String)
      (fm : List (String × FMValue)) (e : BuildError),
      (path, fm) ∈ files → loadPost path fm = Except.error e →
      ∀ posts, buildSite files ≠ Except.ok posts := by
  intro files
  induction files with
  | nil =>
    intro path fm e hmem
    cases hmem
  | cons f rest ih =>
    intro path fm e hmem herr posts hok
    obtain ⟨fp, ffm⟩ := f
    rw [buildSite] at hok
    rcases List.mem_cons.mp hmem with heq | hmem2
    · injection heq with h1 h2
      subst h1
      subst h2
      rw [herr] at hok
      exact Except.noConfusion hok
    · rcases hl : loadPost fp ffm with e2 | post
      · rw [hl] at hok
        exact Except.noConfusion hok
      · rw [hl] at hok
        rcases hr : buildSite rest with e2 | posts2
        · rw [hr] at hok
          exact Except.noConfusion hok
        · exact ih path fm e hmem2 herr posts2 hr

/-! ## Claim theorems -/

/-- Claim C1: with `SITE.postPerPage = 4`, an index of exactly 9 posts
paginates into exactly the page sizes 4, 4 and 1; in general the page count
is the ceiling of the post count divided by `postPerPage` (in natural
numbers, `(count + postPerPage - 1) / postPerPage`). -/
theorem pagination_pages_of_nine :
    (∀ posts : List Post, posts.length = 9 →
      (chunkList SITE.postPerPage posts).map List.length = [4, 4, 1]) ∧
    (∀ posts : List Post,
      (chunkList SITE.postPerPage posts).length =
        (posts.length + SITE.postPerPage - 1) / SITE.postPerPage) := by
  constructor
  · intro posts h
    rw [chunkList_map_length]
    have hp : SITE.postPerPage = 4 := rfl
    rw [hp, h]
    rw [chunkSizes, dif_neg (by decide)]
    norm_num
    rw [chunkSizes, dif_neg (by decide)]
    norm_num
    rw [chunkSizes, dif_neg (by decide)]
    norm_num
    rw [chunkSizes, dif_pos (by decide)]
  · intro posts
    exact chunkList_length SITE.postPerPage (by decide) posts

/-- Witness for claim C1: a concrete index of nine posts paginates into
page sizes 4, 4 and 1. -/
theorem pagination_pages_of_nine_witness :
    ninePosts.length = 9 ∧
    (chunkList SITE.postPerPage ninePosts).map List.length = [4, 4, 1] :=
  ⟨rfl, pagination_pages_of_nine.1 ninePosts rfl⟩

/-- Claim C6: parsing front matter into the Post shape and re-serializing
the result preserves the set of required keys (`title`, `author`,
`date`). -/
theorem frontMatter_required_roundTrip :
    ∀ (path : String) (fm : List (String × FMValue)) (p : Post),
      loadPost path fm = Except.ok p →
      requiredKeys.filter (fun k => (lookupKey (serializePost p) k).isSome) =
      requiredKeys.filter (fun k => (lookupKey fm k).isSome) := by
  intro path fm p h
  rcases hT : getStr fm "title" with _ | t
  · rw [loadPost, hT] at h
    exact Except.noConfusion h
  · rcases hA : getStr fm "author" with _ | a
    · rw [loadPost, hT, hA] at h
      exact Except.noConfusion h
    · rcases hD : getStr fm "date" with _ | d
      · rw [loadPost, hT, hA, hD] at h
        exact Except.noConfusion h
      · rw [loadPost, hT, hA, hD] at h
        injection h with h2
        subst h2
        simp [requiredKeys, serializePost, lookupKey,
          lookup_isSome_of_getStr hT, lookup_isSome_of_getStr hA,
          lookup_isSome_of_getStr hD]

/-- Witness for claim C6: the front matter of `sockets_python.md` parses,
and re-serialization preserves its required key set. -/
theorem frontMatter_required_roundTrip_witness :
    loadPost socketsPythonPath socketsPythonFM = Except.ok socketsPythonPost ∧
    requiredKeys.filter
        (fun k => (lookupKey (serializePost socketsPythonPost) k).isSome) =
      requiredKeys.filter (fun k => (lookupKey socketsPythonFM k).isSome) :=
  ⟨rfl, frontMatter_required_roundTrip socketsPythonPath socketsPythonFM
    socketsPythonPost rfl⟩

/-- Claim C8: a build given a content file whose front matter lacks a
required field fails with an error naming the file path and a required
field that is indeed not present as a scalar string, and the build never
instead returns a post list. -/
theorem missing_required_field_fails_build :
    ∀ (path : String) (fm : List (String × FMValue)),
      (∃ k, k ∈ requiredKeys ∧ lookupKey fm k = none) →
      (∃ e : BuildError, loadPost path fm = Except.error e ∧ e.path = path ∧
        e.field ∈ requiredKeys ∧
        ∀ s, lookupKey fm e.field ≠ some (FMValue.str s)) ∧
      (∀ (files : List (String × List (String × FMValue)))
        (posts : List Post),
        (path, fm) ∈ files → buildSite files ≠ Except.ok posts) := by
  intro path fm hmissing
  have herr : ∃ e : BuildError, loadPost path fm = Except.error e ∧
      e.path = path ∧ e.field ∈ requiredKeys ∧ getStr fm e.field = none := by
    rcases hT : getStr fm "title" with _ | t
    · exact ⟨⟨path, "title"⟩, by rw [loadPost, hT], rfl,
        by simp [requiredKeys], hT⟩
    · rcases hA : getStr fm "author" with _ | a
      · exact ⟨⟨path, "author"⟩, by rw [loadPost, hT, hA], rfl,
          by simp [requiredKeys], hA⟩
      · rcases hD : getStr fm "date" with _ | d
        · exact ⟨⟨path, "date"⟩, by rw [loadPost, hT, hA, hD], rfl,
            by simp [requiredKeys], hD⟩
        · exfalso
          obtain ⟨k, hk, hnone⟩ := hmissing
          have hks := getStr_eq_none_of_lookup_none hnone
          simp only [requiredKeys, List.mem_cons, List.mem_singleton,
            List.not_mem_nil, or_false] at hk
          rcases hk with rfl | rfl | rfl
          · rw [hT] at hks
            exact Option.noConfusion hks
          · rw [hA] at hks
            exact Option.noConfusion hks
          · rw [hD] at hks
            exact Option.noConfusion hks
  obtain ⟨e, he, hp, hf, hn⟩ := herr
  refine ⟨⟨e, he, hp, hf, (getStr_eq_none_iff fm e.field).mp hn⟩, ?_⟩
  intro files posts hmem
  exact buildSite_not_ok files path fm e hmem he posts

/-- Witness for claim C8: a front matter with title and author but no date
makes the loader fail naming the file and the `date` field, and the build
of a store holding that file returns no post list. -/
theorem missing_required_field_fails_build_witness :
    (lookupKey missingDateFM "date" = none) ∧
    (∃ e : BuildError,
      loadPost "src/data/blog/2025/no_date.md" missingDateFM =
        Except.error e ∧
      e.path = "src/data/blog/2025/no_date.md" ∧ e.field ∈ requiredKeys ∧
      ∀ s, lookupKey missingDateFM e.field ≠ some (FMValue.str s)) ∧
    (∀ posts : List Post,
      buildSite [("src/data/blog/2025/no_date.md", missingDateFM)] ≠
        Except.ok posts) := by
  have hm : ∃ k, k ∈ requiredKeys ∧ lookupKey missingDateFM k = none :=
    ⟨"date", by simp [requiredKeys], rfl⟩
  have h := missing_required_field_fails_build
    "src/data/blog/2025/no_date.md" missingDateFM hm
  exact ⟨rfl, h.1, fun posts =>
    h.2 [("src/data/blog/2025/no_date.md", missingDateFM)] posts
      (List.mem_singleton.mpr rfl)⟩

/-- Claim C9: each of the three content files sets `draft` to false and
`featured` to true, so the production build publishes all three posts, each
featured. -/
theorem all_current_posts_published_featured :
    lookupKey socketsPythonFM "draft" = some (FMValue.bool false) ∧
    lookupKey socketsPythonFM "featured" = some (FMValue.bool true) ∧
    lookupKey socketsPython1FM "draft" = some (FMValue.bool false) ∧
    lookupKey socketsPython1FM "featured" = some (FMValue.bool true) ∧
    lookupKey socketsPython2FM "draft" = some (FMValue.bool false) ∧
    lookupKey socketsPython2FM "featured" = some (FMValue.bool true) ∧
    ∃ posts : List Post,
      buildSite contentStore = Except.ok posts ∧
      posts.length = 3 ∧
      posts.all (fun p => !p.draft && p.featured) = true ∧
      productionPosts posts = posts := by
  refine ⟨rfl, rfl, rfl, rfl, rfl, rfl, _, rfl, rfl, rfl, rfl⟩

/-- Claim C10: the site configuration's `scheduledPostMargin` field
evaluates to exactly 900000 milliseconds, the product `15 * 60 * 1000`. -/
theorem scheduledPostMargin_value :
    SITE.scheduledPostMargin = 900000 ∧
    SITE.scheduledPostMargin = 15 * 60 * 1000 :=
  ⟨rfl, rfl⟩

/-- Claim C4: the build manifest binds exactly the four logical-directory
keys `output`, `input`, `includes` and `layouts`, to `dist`, `src`,
`_includes` and `_layouts` respectively. -/
theorem buildManifest_directory_keys :
    lookupKey eleventyConfigObject "dir" = some (ConfigValue.obj eleventyDirFields) ∧
    eleventyDirFields.map Prod.fst = ["output", "input", "includes", "layouts"] ∧
    lookupKey eleventyDirFields "output" = some (ConfigValue.str "dist") ∧
    lookupKey eleventyDirFields "input" = some (ConfigValue.str "src") ∧
    lookupKey eleventyDirFields "includes" = some (ConfigValue.str "_includes") ∧
    lookupKey eleventyDirFields "layouts" = some (ConfigValue.str "_layouts") :=
  ⟨rfl, rfl, rfl, rfl, rfl, rfl⟩

/-- Claim C5 (refuted by the code): the build configuration spells the
template-engine key `markdownTemplteEngine`, so looking the value up under
the generator's documented key `markdownTemplateEngine` finds nothing; the
`njk` selection sits under a key the generator does not read. -/
theorem markdownTemplateEngine_key_misspelled :
    lookupKey eleventyConfigObject "markdownTemplteEngine" =
      some (ConfigValue.str "njk") ∧
    lookupKey eleventyConfigObject generatorMarkdownEngineKey = none ∧
    "markdownTemplteEngine" ≠ generatorMarkdownEngineKey :=
  ⟨rfl, rfl, by decide⟩

/-- Claim C2: the site configuration record is immutable: across any trace
of operations of the configuration module (which exposes only a read), the
store still holds `SITE` afterwards and every read returned `SITE`. -/
theorem siteConfig_immutable (ops : List SiteConfigOp) :
    runTrace ops SITE = (List.replicate ops.length SITE, SITE) :=
  runTrace_replicate SITE ops

/-- Witness for claim C2: a concrete trace of two reads returns `SITE`
twice and leaves the store at `SITE`. -/
theorem siteConfig_immutable_witness :
    runTrace [SiteConfigOp.read, SiteConfigOp.read] SITE =
      ([SITE, SITE], SITE) :=
  siteConfig_immutable [SiteConfigOp.read, SiteConfigOp.read]

/-- Claim C3: every formatter function of the localization dictionary
(`tag.desc`, `category.desc`, `date.shortFormat`, `date.fullFormat`,
`date.published`, `date.updated`) is deterministic: equal inputs give equal
output strings.  The formatters are total Lean functions with no effects,
embedding the side-effect-free source expressions. -/
theorem localization_formatters_deterministic :
    (∀ a b : String, a = b → en.tag.desc a = en.tag.desc b) ∧
    (∀ a b : String, a = b → en.category.desc a = en.category.desc b) ∧
    (∀ a b : Dayjs, a = b → en.date.shortFormat a = en.date.shortFormat b) ∧
    (∀ a b : Dayjs, a = b → en.date.fullFormat a = en.date.fullFormat b) ∧
    (∀ a b : String, a = b → en.date.published a = en.date.published b) ∧
    (∀ a b : String, a = b → en.date.updated a = en.date.updated b) := by
  refine ⟨?_, ?_, ?_, ?_, ?_, ?_⟩ <;> intro a b h <;> rw [h]

/-- Witness for claim C3 at concrete inputs: the date of the first post,
formatted with the full format, and a concrete tag name. -/
theorem localization_formatters_deterministic_witness :
    (Dayjs.mk 2025 9 13 19 0 = Dayjs.mk 2025 9 13 19 0 ∧
      en.date.fullFormat (Dayjs.mk 2025 9 13 19 0) =
        en.date.fullFormat (Dayjs.mk 2025 9 13 19 0)) ∧
    (("Python" : String) = "Python" ∧
      en.tag.desc "Python" = en.tag.desc "Python") :=
  ⟨⟨rfl, localization_formatters_deterministic.2.2.2.1 _ _ rfl⟩,
   ⟨rfl, localization_formatters_deterministic.1 _ _ rfl⟩⟩

/-- Claim C7: no post whose front matter sets `draft` to true is in the
production output list. -/
theorem draft_posts_excluded_in_production :
    ∀ (posts : List Post) (p : Post), p.draft = true →
      p ∉ productionPosts posts := by
  intro posts p hd hmem
  have hm := List.mem_filter.mp hmem
  simp [hd] at hm

/-- Witness for claim C7: a concrete draft post is excluded from the
production output of a store holding it. -/
theorem draft_posts_excluded_in_production_witness :
    draftPost.draft = true ∧
    draftPost ∉ productionPosts [samplePost, draftPost] :=
  ⟨rfl, draft_posts_excluded_in_production [samplePost, draftPost] draftPost rfl⟩

end TalamaDev
